import Mathlib

/-!
Verification development for the email-intelligence pipeline of the
HackTheAgent repository (backend/app).  The Python modules
`threat_detection.py`, `semantic.py`, `rag.py` and `orchestrator.py` are
shallowly embedded below: pure functions become Lean functions, floats
become exact rationals (ℚ), Python exceptions become `Except`, and the
external collaborators (embedding model, Chroma vector store, LLM,
classifier, SQLite) are abstracted as injected functions, exactly at the
call boundary where the source invokes them.
-/

/-! ## Python-style string primitives

The source manipulates Python `str` values with `in`, `.lower()`,
`.strip()`, `.split('@')[-1]`, `.rfind`, slicing and `re` searches.  We
model strings through their character lists.  ASCII is assumed for
case-folding and whitespace (all inputs in the repository and its spec
are ASCII).  `String.toLower` / `String.map` are avoided because their
well-founded recursion does not reduce in the kernel.
-/

/-- Python `needle in hay` on character lists (empty needle matches). -/
def listContainsSub (needle : List Char) : List Char → Bool
  | [] => needle.isEmpty
  | c :: t => needle.isPrefixOf (c :: t) || listContainsSub needle t

/-- Python `needle in hay` for strings. -/
def strContains (hay needle : String) : Bool :=
  listContainsSub needle.data hay.data

/-- Python `str.lower()` (ASCII case folding). -/
def pyLower (s : String) : String := ⟨s.data.map Char.toLower⟩

/-- Python ASCII whitespace, the class matched by `\s` and stripped by `str.strip()`. -/
def isPySpace (c : Char) : Bool :=
  c = ' ' || c = '\t' || c = '\n' || c = '\r' || c = '\x0b' || c = '\x0c'

/-- Python `str.strip()`: remove leading and trailing whitespace. -/
def pyStrip (s : String) : String :=
  ⟨((s.data.dropWhile isPySpace).reverse.dropWhile isPySpace).reverse⟩

/-- Python `s.split(sep)[-1]`: the text after the last separator
(`s` itself when the separator does not occur). -/
def lastSplitSeg (sep : Char) (l : List Char) : List Char :=
  l.foldl (fun acc c => if c = sep then [] else acc ++ [c]) []

/-- Python `s.rfind(c)`: index of the last occurrence of `c`, `-1` if absent. -/
def pyRfind (c : Char) : List Char → Int
  | [] => -1
  | x :: t =>
      let r := pyRfind c t
      if 0 ≤ r then r + 1 else if x = c then 0 else -1

/-- Clamp one Python slice endpoint to an actual list index
(negative values count from the end, then the result is clamped to `[0, len]`). -/
def pySliceIdx (len : Nat) (i : Int) : Nat :=
  let j := if i < 0 then i + len else i
  (max 0 (min j len)).toNat

/-- Python slice `l[a:b]` with arbitrary integer endpoints. -/
def pySlice (l : List Char) (a b : Int) : List Char :=
  let lo := pySliceIdx l.length a
  let hi := pySliceIdx l.length b
  (l.drop lo).take (hi - lo)

/-- Python true division `a / b` on integers: raises `ZeroDivisionError`
when `b = 0`, otherwise produces an exact rational. -/
def pyDivNat (a b : Nat) : Except String ℚ :=
  if b = 0 then .error "ZeroDivisionError: division by zero"
  else .ok ((a : ℚ) / (b : ℚ))

/-- Python `round(x, 2)`.  All threat scores produced by the source are
integer multiples of 1/20, where every rounding convention agrees, so the
half-up convention of Mathlib `round` is a faithful model. -/
def pyRound2 (q : ℚ) : ℚ := (round (q * 100) : ℚ) / 100

/-- Python `round(x, 4)`, used for search similarity scores. -/
def pyRound4 (q : ℚ) : ℚ := (round (q * 10000) : ℚ) / 10000

/-! ## threat_detection.py -/

/-- `ThreatIndicator` (threat_detection.py:20): one piece of threat evidence. -/
structure ThreatIndicator where
  type : String
  severity : String
  description : String
  evidence : String
deriving DecidableEq

/-- `EmailThreatAnalysis` (threat_detection.py:28).  The wall-clock
`timestamp` field is abstracted as the constant `""`. -/
structure EmailThreatAnalysis where
  email_id : String
  threat_level : String
  threat_score : ℚ
  indicators : List ThreatIndicator
  recommendation : String
  timestamp : String
deriving DecidableEq

/-- The email dict passed to `EmailThreatDetector.analyze`; the field
defaults model `email.get(key, default)` for absent keys. -/
structure EmailDict where
  id : String := "unknown"
  from_ : String := ""
  subject : String := ""
  body : String := ""
deriving DecidableEq

/-- `TRUSTED_DOMAINS` (threat_detection.py:51). -/
def TRUSTED_DOMAINS : List String :=
  ["gmail.com", "outlook.com", "yahoo.com", "icloud.com", "protonmail.com",
   "ibm.com", "google.com", "microsoft.com", "apple.com", "amazon.com",
   "github.com", "linkedin.com", "slack.com", "zoom.com", "stripe.com"]

/-- `PHISHING_KEYWORDS` (threat_detection.py:58). -/
def PHISHING_KEYWORDS : List String :=
  ["verify your account", "confirm your identity", "update your password",
   "unusual activity", "click here immediately", "act now", "urgent action required",
   "suspended account", "limited time", "rare opportunity", "claim reward",
   "congratulations you won", "tax refund", "nigerian prince", "wire transfer"]

/-- `SUSPICIOUS_TLDS` (threat_detection.py:66).  No listed TLD is a
suffix of another, so at most one can match a given domain and the
arbitrary Python set-iteration order is immaterial. -/
def SUSPICIOUS_TLDS : List String :=
  [".tk", ".ml", ".ga", ".cf", ".info", ".biz", ".pw", ".xyz"]

/-- `KNOWN_PHISHING_PATTERNS` (threat_detection.py:69) compiled with
`re.IGNORECASE` and used via `pattern.search(domain)`.  Each pattern is of
the form `.*X.*` or contains no anchors, so `search` succeeds exactly when
the (lower-cased) domain contains the literal core; `paypa[li]\.` matches
exactly the substrings `paypal.` and `paypai.` (the digit `1` is NOT in
the character class). -/
def phishing_domain_match (domain : String) : Bool :=
  let d := pyLower domain
  strContains d "paypal." || strContains d "paypai." ||
  strContains d "amazon-security" || strContains d "apple-id-verification" ||
  strContains d "microsoft-account" || strContains d "gmail-verify" ||
  strContains d "tax-refund"

/-- Characters allowed inside an extracted URL: the class `[^\s\)]`. -/
def urlChar (c : Char) : Bool := !(isPySpace c || c = ')')

/-- The scheme part `https?://` of the URL regex; returns the consumed
characters and the rest.  The optional `s?` is deterministic because a
backtracked empty `s?` would need `:` where `s` stands. -/
def matchScheme : List Char → Option (List Char × List Char)
  | 'h' :: 't' :: 't' :: 'p' :: 's' :: ':' :: '/' :: '/' :: r =>
      some (['h', 't', 't', 'p', 's', ':', '/', '/'], r)
  | 'h' :: 't' :: 't' :: 'p' :: ':' :: '/' :: '/' :: r =>
      some (['h', 't', 't', 'p', ':', '/', '/'], r)
  | _ => none

/-- One match of `https?://[^\s\)]+` at the head of the list: the full
match (scheme plus maximal run of URL characters) and the remainder. -/
def matchUrlAt (l : List Char) : Option (List Char × List Char) :=
  match matchScheme l with
  | none => none
  | some (scheme, rest) =>
      let run := rest.takeWhile urlChar
      if run.isEmpty then none
      else some (scheme ++ run, rest.drop run.length)

/-- `re.findall(r'https?://[^\s\)]+', text)`: left-to-right,
non-overlapping matches.  The fuel argument bounds the scan; each step
consumes at least one character, so `l.length` fuel is always enough. -/
def findUrlsAux : Nat → List Char → List (List Char)
  | 0, _ => []
  | _, [] => []
  | fuel + 1, c :: t =>
      match matchUrlAt (c :: t) with
      | some (url, remaining) => url :: findUrlsAux fuel remaining
      | none => findUrlsAux fuel t

/-- All `https?://...` URL occurrences in a text, in order, with multiplicity. -/
def findUrls (l : List Char) : List (List Char) := findUrlsAux l.length l

/-- Skip through the first occurrence of `needle`, returning the tail
after it (used to decide the two-literal regexes below). -/
def afterFirst (needle : List Char) : List Char → Option (List Char)
  | [] => if needle.isEmpty then some [] else none
  | c :: t =>
      if needle.isPrefixOf (c :: t) then some ((c :: t).drop needle.length)
      else afterFirst needle t

/-- `A` followed (at or after the end of `A`) by `B`, the search
semantics of the regexes `.*?eval.*?\.js` and `.*?password.*?reset`. -/
def containsThenContains (a b hay : List Char) : Bool :=
  match afterFirst a hay with
  | some rest => listContainsSub b rest
  | none => false

/-- One dotted segment of the raw-IP regex: between 1 and 3 digits
followed by `.`; with fixed input the digit run length is forced, so the
greedy `{1,3}` quantifier is deterministic. -/
def ipSegment (l : List Char) : Option (List Char) :=
  let run := l.takeWhile Char.isDigit
  if 1 ≤ run.length ∧ run.length ≤ 3 then
    match l.drop run.length with
    | '.' :: t => some t
    | _ => none
  else none

/-- Does `[0-9]{1,3}\.[0-9]{1,3}\.[0-9]{1,3}\.[0-9]{1,3}` match starting
exactly here (final group needs at least one digit)? -/
def ipAt (l : List Char) : Bool :=
  match ipSegment l with
  | none => false
  | some l1 =>
    match ipSegment l1 with
    | none => false
    | some l2 =>
      match ipSegment l2 with
      | none => false
      | some l3 =>
        match l3 with
        | c :: _ => c.isDigit
        | [] => false

/-- `re.search` of the raw-IP pattern: a match at some position. -/
def hasIpPattern : List Char → Bool
  | [] => false
  | c :: t => ipAt (c :: t) || hasIpPattern t

/-- `MALICIOUS_URL_PATTERNS` (threat_detection.py:75), compiled with
`re.IGNORECASE` and applied with `.search(url)`.  The optional
`(?:https?://)?` prefixes are immaterial under search semantics, so each
pattern reduces to the containment test shown. -/
def url_is_malicious (url : List Char) : Bool :=
  let u := url.map Char.toLower
  listContainsSub "bit.ly/".data u || listContainsSub "tinyurl/".data u ||
  listContainsSub "shortened/".data u || listContainsSub "x.co/".data u ||
  hasIpPattern u ||
  containsThenContains "eval".data ".js".data u ||
  containsThenContains "password".data "reset".data u

/-- Evidence string for a suspicious URL:
`url[:50] + '...' if len(url) > 50 else url` (threat_detection.py:221). -/
def urlEvidence (url : List Char) : String :=
  if url.length > 50 then String.mk (url.take 50) ++ "..." else String.mk url

/-- The indicator appended for one suspicious URL (threat_detection.py:217). -/
def mkUrlIndicator (url : List Char) : ThreatIndicator :=
  ⟨"suspicious_url", "HIGH", "URL matches suspicious pattern", urlEvidence url⟩

/-- `_check_phishing_keywords` (threat_detection.py:154).  The source
iterates a Python set whose order is unspecified; we fix declaration
order, which affects only the order inside the evidence string, not the
number of matches or the score. -/
def check_phishing_keywords (text : String) : List ThreatIndicator :=
  let found := PHISHING_KEYWORDS.filter (fun kw => strContains text kw)
  if found.isEmpty then []
  else
    [⟨"phishing", "HIGH",
      "Found " ++ toString found.length ++ " phishing-related keywords",
      String.intercalate ", " (found.take 3)⟩]

/-- `_check_sender_domain` (threat_detection.py:173). -/
def check_sender_domain (sender : String) : Option ThreatIndicator :=
  if sender = "" || !(strContains sender "@") then none
  else
    let domain : String := ⟨lastSplitSeg '@' sender.data⟩
    if TRUSTED_DOMAINS.contains domain then none
    else
      match SUSPICIOUS_TLDS.find? (fun tld => tld.data.isSuffixOf domain.data) with
      | some tld =>
          some ⟨"suspicious_domain", "MEDIUM",
                "Domain uses suspicious TLD: " ++ tld, domain⟩
      | none =>
          if phishing_domain_match domain then
            some ⟨"phishing", "CRITICAL",
                  "Sender domain matches known phishing pattern", domain⟩
          else none

/-- `_check_urls` (threat_detection.py:206): one indicator per URL
occurrence whose text matches some malicious pattern (the inner `break`
only prevents a second indicator for the same occurrence). -/
def check_urls (text : String) : List ThreatIndicator :=
  (findUrls text.data).filterMap fun url =>
    if url_is_malicious url then some (mkUrlIndicator url) else none

/-- `typo_indicators` (threat_detection.py:229) in dict insertion order.
The key `linkedIn` contains an upper-case letter and can never occur in
the lower-cased text, faithfully to the source. -/
def typo_indicators : List (String × String) :=
  [("gmial", "gmail"), ("gmai.l", "gmail"),
   ("redditt", "reddit"), ("twiiter", "twitter"),
   ("paypa1", "paypal"), ("instgram", "instagram"),
   ("linkedIn", "linkedin"), ("amaz0n", "amazon")]

/-- `_check_typosquatting` (threat_detection.py:227): first matching
misspelling wins. -/
def check_typosquatting (sender subject : String) : Option ThreatIndicator :=
  let suspiciousText := pyLower (sender ++ " " ++ subject)
  (typo_indicators.find? (fun p => strContains suspiciousText p.1)).map fun p =>
    ⟨"typosquatting", "HIGH",
     "Detected potential typosquatting: " ++ p.1 ++ " vs " ++ p.2, p.1⟩

/-- `trusted_names` (threat_detection.py:255). -/
def trusted_names : List String :=
  ["amazon", "apple", "microsoft", "google", "ibm", "paypal"]

/-- The loop body of `_check_spoofing`: try each company in order; a
company mentioned in subject or sender yields an indicator only when the
sender domain is non-empty, does not contain the company name and is not
trusted; otherwise the loop continues. -/
def spoofLoop (sender subject : String) : List String → Option ThreatIndicator
  | [] => none
  | company :: rest =>
      if strContains subject company || strContains sender company then
        let domain : String :=
          if strContains sender "@" then ⟨lastSplitSeg '@' sender.data⟩ else ""
        if domain ≠ "" ∧ !(strContains domain company) ∧
            !(TRUSTED_DOMAINS.contains domain) then
          some ⟨"spoofing", "CRITICAL",
                "Possible spoofing: mentions " ++ company ++ " but domain is " ++ domain,
                domain⟩
        else spoofLoop sender subject rest
      else spoofLoop sender subject rest

/-- `_check_spoofing` (threat_detection.py:249). -/
def check_spoofing (email : EmailDict) : Option ThreatIndicator :=
  spoofLoop (pyLower email.from_) (pyLower email.subject) trusted_names

/-- `_calculate_threat_level` (threat_detection.py:270). -/
def calculate_threat_level (score : ℚ) : String :=
  if 0.75 ≤ score then "CRITICAL"
  else if 0.5 ≤ score then "WARNING"
  else if 0.25 ≤ score then "CAUTION"
  else "SAFE"

/-- `_generate_recommendation` (threat_detection.py:281); the
`indicators` argument is unused in the source as well. -/
def generate_recommendation (level : String) (indicators : List ThreatIndicator) : String :=
  if level = "CRITICAL" then
    "⚠️ CRITICAL: Delete immediately. This email shows multiple threat indicators."
  else if level = "WARNING" then
    "⚠️ WARNING: Exercise caution. Do not click links or download attachments."
  else if level = "CAUTION" then
    "⚠️ CAUTION: Be suspicious. Verify sender before responding."
  else "✅ SAFE: No significant threats detected."

/-- The accumulated `threat_score` of `analyze` before clamping
(threat_detection.py:98-134): the five weighted contributions.  Each
check is invoked once in the source; being pure, re-referencing them here
is equivalent. -/
def rawThreatScore (email : EmailDict) : ℚ :=
  let sender := pyLower email.from_
  let subject := pyLower email.subject
  let body := pyLower email.body
  (if check_phishing_keywords (subject ++ " " ++ body) ≠ [] then 0.2 else 0) +
  (if (check_sender_domain sender).isSome then 0.3 else 0) +
  (if check_urls body ≠ [] then 0.25 * ((check_urls body).length : ℚ) else 0) +
  (if (check_typosquatting sender subject).isSome then 0.15 else 0) +
  (if (check_spoofing email).isSome then 0.25 else 0)

/-- `EmailThreatDetector.analyze` (threat_detection.py:88): runs the five
checks over the lower-cased fields, concatenates indicators in source
order, clamps the score with `min(threat_score, 1.0)`, derives the level
and recommendation, and rounds the reported score to two decimals. -/
def analyze (email : EmailDict) : EmailThreatAnalysis :=
  let sender := pyLower email.from_
  let subject := pyLower email.subject
  let body := pyLower email.body
  let indicators : List ThreatIndicator :=
    check_phishing_keywords (subject ++ " " ++ body) ++
    (check_sender_domain sender).toList ++
    check_urls body ++
    (check_typosquatting sender subject).toList ++
    (check_spoofing email).toList
  let threatScore := min (rawThreatScore email) 1
  let threatLevel := calculate_threat_level threatScore
  { email_id := email.id
    threat_level := threatLevel
    threat_score := pyRound2 threatScore
    indicators := indicators
    recommendation := generate_recommendation threatLevel indicators
    timestamp := "" }

/-! ## semantic.py

`SemanticSearchEngine` wraps two external collaborators: the
sentence-transformers embedding model and the Chroma vector store.  Both
are injected as functions.  The embedding call crosses a process/network
boundary and may fail, hence `Except`; Chroma query results are modelled
as one flat hit list (the source always queries with a single embedding
and reads column 0 of each nested result list).
-/

/-- `SearchResult` (schemas.py): one semantic search hit. -/
structure SearchResult where
  id : String
  subject : String
  date : String
  score : ℚ
  snippet : String
deriving DecidableEq

/-- One hit returned by `collection.query`: the metadata keys the source
reads, the stored document text, and the reported distance. -/
structure QueryHit where
  email_id : String
  subject : String
  date : String
  document : String
  distance : ℚ
deriving DecidableEq

/-- The Chroma collection as seen through the calls the source makes:
`count()` and `query(query_embeddings=[e], n_results=n)`. -/
structure Collection where
  entryCount : Nat
  query : List ℚ → Nat → List QueryHit

/-- The semantic engine: injected embedding function plus collection. -/
structure SemanticSearchEngine where
  embed : String → Except String (List ℚ)
  collection : Collection

/-- `settings.chunk_size` (config.py:36). -/
def settings_chunk_size : Nat := 500

/-- `settings.chunk_overlap` (config.py:37). -/
def settings_chunk_overlap : Nat := 50

/-- Python `x or default` for the optional int arguments of
`_chunk_text`: `None` and `0` are both falsy and select the default. -/
def pyOrNat (arg : Option Nat) (dflt : Nat) : Nat :=
  match arg with
  | none => dflt
  | some 0 => dflt
  | some n => n

/-- The body of the `while start < len(text)` loop of `_chunk_text`
(semantic.py:74-89), with Python slice semantics for the window and the
sentence-boundary backtrack.  The loop variable `start` can move in
either direction for adversarial `overlap` values, so the recursion is
bounded by explicit fuel; the wrapper supplies enough fuel for every
terminating execution of the source loop. -/
def chunkLoop (text : List Char) (chunkSize overlap : Nat) :
    Nat → Int → List String
  | 0, _ => []
  | fuel + 1, start =>
      if start < (text.length : Int) then
        let end0 : Int := start + chunkSize
        let chunk0 := pySlice text start end0
        let step :=
          if end0 < (text.length : Int) then
            let lastPeriod := pyRfind '.' chunk0
            let lastNewline := pyRfind '\n' chunk0
            let breakPoint := max lastPeriod lastNewline
            if 2 * breakPoint > (chunkSize : Int) then
              (pySlice chunk0 0 (breakPoint + 1), start + breakPoint + 1)
            else (chunk0, end0)
          else (chunk0, end0)
        pyStrip ⟨step.1⟩ :: chunkLoop text chunkSize overlap fuel (step.2 - overlap)
      else []

/-- `_chunk_text` (semantic.py:53): default the arguments, return
`[text]` whole when it fits in one chunk, else run the sliding window. -/
def chunk_text (text : String) (chunkSizeArg overlapArg : Option Nat) : List String :=
  let chunkSize := pyOrNat chunkSizeArg settings_chunk_size
  let overlap := pyOrNat overlapArg settings_chunk_overlap
  if text.length ≤ chunkSize then [text]
  else chunkLoop text.data chunkSize overlap (text.length + 1) 0

/-- `NormalizedMessage` together with its `MessageMetadata` (schemas.py).
`from` and `to` are reserved words, hence the trailing underscores. -/
structure NormalizedMessage where
  id : String
  text : String
  from_ : String
  to_ : String
  subject : String
  date : String
deriving DecidableEq

/-- The stats dict returned by `index_messages` (semantic.py:140). -/
structure IndexStats where
  messages_indexed : Nat
  chunks_created : Nat
  avg_chunks_per_message : ℚ
deriving DecidableEq

/-- `index_messages` (semantic.py:93).  Chunk ids, per-chunk metadata,
the embedding batch and `collection.add` only write to the external
store; the returned value is `(len(all_chunks), stats)`, where computing
`avg_chunks_per_message` performs Python division by `len(messages)` and
raises `ZeroDivisionError` on an empty batch. -/
def index_messages (messages : List NormalizedMessage) :
    Except String (Nat × IndexStats) :=
  let allChunks := (messages.map (fun m => chunk_text m.text none none)).flatten
  match pyDivNat allChunks.length messages.length with
  | .error e => .error e
  | .ok avg =>
      .ok (allChunks.length,
           { messages_indexed := messages.length
             chunks_created := allChunks.length
             avg_chunks_per_message := pyRound2 avg })

/-- The snippet field of a result:
`document[:200] + "..." if len(document) > 200 else document` (semantic.py:198). -/
def mkSnippet (document : String) : String :=
  if document.length > 200 then String.mk (document.data.take 200) ++ "..." else document

/-- Formatting of one Chroma hit into a `SearchResult` (semantic.py:183-200):
similarity `score = 1 - distance`, rounded to 4 decimals. -/
def formatHit (h : QueryHit) : SearchResult :=
  { id := h.email_id
    subject := h.subject
    date := h.date
    score := pyRound4 (1 - h.distance)
    snippet := mkSnippet h.document }

/-- `SemanticSearchEngine.search` (semantic.py:148): read the collection
count, clamp `top_k`, return `[]` for an empty collection before any
embedding call, otherwise embed the query, query the collection and
format each hit in backend order. -/
def SemanticSearchEngine.search (eng : SemanticSearchEngine)
    (query : String) (topK : Nat) : Except String (List SearchResult) :=
  let collectionCount := eng.collection.entryCount
  let actualTopK := if 0 < collectionCount then min topK collectionCount else 1
  if collectionCount = 0 then .ok []
  else
    match eng.embed query with
    | .error e => .error e
    | .ok emb => .ok ((eng.collection.query emb actualTopK).map formatHit)

/-! ## rag.py -/

/-- `Citation` (schemas.py). -/
structure Citation where
  id : String
  subject : String
  date : String
  snippet : String
deriving DecidableEq

/-- `RAGResponse` (schemas.py). -/
structure RAGResponse where
  answer : String
  citations : List Citation
deriving DecidableEq

/-- `RAGEngine` (rag.py:11): the search engine plus the text-generation
collaborator.  `generate` stands for the `_call_llm` provider dispatch
(watsonx / OpenAI / fallback), which consumes the assembled prompt and
returns the answer text. -/
structure RAGEngine where
  search_engine : SemanticSearchEngine
  generate : String → String

/-- `_build_context` (rag.py:26): one labelled block per result,
numbered from 1, joined with a blank line. -/
def buildContextAux : Nat → List SearchResult → List String
  | _, [] => []
  | i, r :: rest =>
      ("[Email " ++ toString i ++ "]\n" ++
       "Subject: " ++ r.subject ++ "\n" ++
       "Date: " ++ r.date ++ "\n" ++
       "Content: " ++ r.snippet ++ "\n") :: buildContextAux (i + 1) rest

/-- `_build_context` (rag.py:26). -/
def build_context (searchResults : List SearchResult) : String :=
  String.intercalate "\n" (buildContextAux 1 searchResults)

/-- The instruction prompt assembled by `_call_llm` (rag.py:51). -/
def buildPrompt (question context : String) : String :=
  "You are an AI assistant that answers questions based ONLY on the provided email context.\n\n" ++
  "Context (Retrieved Emails):\n" ++ context ++ "\n\n" ++
  "Question: " ++ question ++ "\n\n" ++
  "Instructions:\n" ++
  "- Answer the question using ONLY information from the provided emails\n" ++
  "- If the answer is not in the emails, say \"I cannot find this information in the retrieved emails\"\n" ++
  "- Be concise and specific\n" ++
  "- Reference which email(s) you used to answer\n\n" ++
  "Answer:"

/-- The fixed answer returned when retrieval is empty (rag.py:158). -/
def noResultsAnswer : String :=
  "I couldn\x27t find any relevant emails to answer your question."

/-- `RAGEngine.answer_question` (rag.py:142): search, short-circuit on no
results, else build context, generate the answer from the prompt, and
derive one citation per search result in order.  A search failure
propagates (the orchestrator catches it at step level). -/
def RAGEngine.answer_question (eng : RAGEngine) (question : String)
    (topK : Nat) : Except String RAGResponse :=
  match eng.search_engine.search question topK with
  | .error e => .error e
  | .ok searchResults =>
    if searchResults.isEmpty then
      .ok { answer := noResultsAnswer, citations := [] }
    else
      let context := build_context searchResults
      let answer := eng.generate (buildPrompt question context)
      .ok { answer := answer
            citations := searchResults.map fun r =>
              { id := r.id, subject := r.subject, date := r.date, snippet := r.snippet } }

/-! ## orchestrator.py — local multi-agent workflow

`MultiAgentOrchestrator._execute_local_workflow` and its step methods.
Each step method wraps its body in `try/except` and reports failure by
setting its own status to ERROR; in the embedding a step body that calls
a fallible collaborator receives that call result as an `Except`.  The
classifier (`app.classify.classifier.classify_email`, a pure rule-based
function none of whose internals the workflow inspects beyond the
`categories`/`priority` entries) and the SQLite database are injected
collaborators.  Wall-clock timestamps and durations are abstracted.
-/

/-- `WorkflowStatus` (orchestrator.py:33). -/
inductive WorkflowStatus where
  | pending
  | running
  | completed
  | error
deriving DecidableEq

/-- One row of the classification list built by `_step_classification`
(orchestrator.py:473). -/
structure ClassificationEntry where
  email_id : String
  subject : String
  category : String
  priority : String
  score : ℚ
deriving DecidableEq

/-- The per-level tallies kept by `_step_threat_detection`
(orchestrator.py:562). -/
structure ThreatCounts where
  safe : Nat
  caution : Nat
  warning : Nat
  critical : Nat
deriving DecidableEq

/-- One entry of `threats_found` (orchestrator.py:576). -/
structure ThreatRecord where
  email_id : String
  threat_level : String
  threat_score : ℚ
  recommendation : String
deriving DecidableEq

/-- Closed model of the dynamic `metadata` dict attached to each step;
one variant per step kind, carrying exactly the keys the source stores
and later reads. -/
inductive StepMetadata where
  | empty
  | intentMeta (intentType : String) (confidence : ℚ)
  | searchMeta (results : List SearchResult) (query : String)
  | classifyMeta (classifications : List ClassificationEntry)
  | ragMeta (answer : String) (citations : List Citation)
  | threatMeta (threatsDetected : Nat) (counts : ThreatCounts)
      (criticalThreats : List ThreatRecord)
  | persistMeta (executionStored : Bool) (threatsStored : Nat)
deriving DecidableEq

/-- `metadata.get("results", [])` as read by the classification and
threat steps (orchestrator.py:457,560). -/
def metaResults : StepMetadata → List SearchResult
  | .searchMeta results _ => results
  | _ => []

/-- `metadata.get("answer")` of the RAG step (orchestrator.py:268). -/
def metaAnswer : StepMetadata → String
  | .ragMeta answer _ => answer
  | _ => ""

/-- `metadata.get("citations", [])` of the RAG step (orchestrator.py:269). -/
def metaCitations : StepMetadata → List Citation
  | .ragMeta _ citations => citations
  | _ => []

/-- `metadata.get("critical_threats", [])` of the threat step
(orchestrator.py:630,642). -/
def metaCriticalThreats : StepMetadata → List ThreatRecord
  | .threatMeta _ _ criticalThreats => criticalThreats
  | _ => []

/-- `WorkflowStep` (orchestrator.py:41); timestamps abstracted. -/
structure WorkflowStep where
  step_id : String
  agent : String
  description : String
  status : WorkflowStatus := .pending
  result : Option String := none
  error : Option String := none
  metadata : StepMetadata := .empty
deriving DecidableEq

/-- The `result` payload assembled at orchestrator.py:267-279: either the
RAG answer with citations plus the search results, or search results only. -/
inductive WorkflowResult where
  | withAnswer (answer : String) (citations : List Citation)
      (searchResults : List SearchResult)
  | searchOnly (searchResults : List SearchResult)
deriving DecidableEq

/-- `WorkflowExecution` (orchestrator.py:60); timestamps and
`duration_ms` abstracted. -/
structure WorkflowExecution where
  execution_id : String
  intent : String
  steps : List WorkflowStep := []
  status : WorkflowStatus := .pending
  result : Option WorkflowResult := none
  error : Option String := none
deriving DecidableEq

/-- The entries of the dict returned by
`classifier.classify_email` that `_step_classification` reads. -/
structure ClassificationDict where
  categories : List String
  priority : String

/-- The collaborators of the local workflow: the semantic engine, the
RAG engine, the rule-based classifier and the database sink. -/
structure OrchestratorEnv where
  search_engine : SemanticSearchEngine
  rag_engine : RAGEngine
  classify_email : EmailDict → ClassificationDict
  persist : Except String Unit

/-- The intent rules of `_step_intent_detection` (orchestrator.py:321-332). -/
def detect_intent_type (query : String) : String :=
  let queryLower := pyLower query
  if ["summarize", "summary", "overview", "what are"].any
      (fun w => strContains queryLower w) then "summarization"
  else if ["count", "how many", "statistics", "analyze"].any
      (fun w => strContains queryLower w) then "analysis"
  else if ["who", "from", "sender"].any
      (fun w => strContains queryLower w) then "sender_analysis"
  else if ["when", "date", "time"].any
      (fun w => strContains queryLower w) then "temporal_search"
  else "search"

/-- `_step_intent_detection` (orchestrator.py:307): pure keyword rules,
always COMPLETED (its body cannot raise). -/
def step_intent_detection (query : String) : WorkflowStep :=
  let intentType := detect_intent_type query
  { step_id := "step_1_intent"
    agent := "Intent Detection Agent"
    description := "Analyzing user intent and query type"
    status := .completed
    result := some ("Detected intent type: " ++ intentType)
    metadata := .intentMeta intentType 0.95 }

/-- `_enhance_search_query` (orchestrator.py:350). -/
def enhance_search_query (query : String) (intentType : String) : String :=
  let queryLower := pyLower query
  if strContains queryLower "critical" || strContains queryLower "urgent" ||
      strContains queryLower "important" then
    query ++ " urgent asap important priority"
  else if strContains queryLower "security" || strContains queryLower "vulnerability" ||
      strContains queryLower "vulnerable" then
    query ++ " CVE critical vulnerability patch security alert threat"
  else if strContains queryLower "bug" || strContains queryLower "issue" ||
      strContains queryLower "error" then
    query ++ " fix bug error authentication failure"
  else if intentType = "analysis" ∨ intentType = "summarization" then query
  else if intentType = "sender_analysis" then query
  else query

/-- `_step_semantic_search` (orchestrator.py:386): ERROR with the raised
message when the engine call fails, else COMPLETED with the result list
in metadata. -/
def step_semantic_search (env : OrchestratorEnv) (query : String)
    (topK : Nat) : WorkflowStep :=
  let base : WorkflowStep :=
    { step_id := "step_2_search"
      agent := "Semantic Search Agent"
      description := "Searching for emails matching: \x27" ++ query ++ "\x27" }
  match env.search_engine.search query topK with
  | .error e => { base with status := .error, error := some e }
  | .ok results =>
      { base with
        status := .completed
        result := some ("Found " ++ toString results.length ++ " matching emails")
        metadata := .searchMeta results query }

/-- `classification.get("categories", ["general"])[0]`: the subscript
raises `IndexError` when the classifier returns an empty category list. -/
def pyListFirst (l : List String) : Except String String :=
  match l with
  | [] => .error "IndexError: list index out of range"
  | x :: _ => .ok x

/-- The classification loop of `_step_classification`
(orchestrator.py:461-479): one entry per search result, classified
through the collaborator. -/
def classifyResults (env : OrchestratorEnv) :
    List SearchResult → Except String (List ClassificationEntry)
  | [] => .ok []
  | r :: rest => do
      let classification := env.classify_email
        { id := r.id, subject := r.subject, body := r.snippet }
      let category ← pyListFirst classification.categories
      let tail ← classifyResults env rest
      .ok ({ email_id := r.id, subject := r.subject, category := category,
             priority := classification.priority, score := r.score } :: tail)

/-- The sort key of orchestrator.py:482-484:
`(-1 if priority == "high" else 0, -score)`, ascending. -/
def classKey1 (c : ClassificationEntry) : Int :=
  if c.priority = "high" then -1 else 0

/-- Lexicographic "less or equal" on the sort key; Python `list.sort` is
a stable ascending sort, matched by a stable insertion sort under this
total preorder. -/
def classLeB (a b : ClassificationEntry) : Bool :=
  classKey1 a < classKey1 b || (classKey1 a = classKey1 b && -a.score ≤ -b.score)

/-- `_step_classification` (orchestrator.py:436): skipped (but
COMPLETED) without a completed search step; otherwise classify every
search result, sort, and record the list. -/
def step_classification (env : OrchestratorEnv)
    (steps : List WorkflowStep) : WorkflowStep :=
  let base : WorkflowStep :=
    { step_id := "step_3_classify"
      agent := "Classification Agent"
      description := "Classifying and prioritizing results" }
  match steps.find? (fun s => s.step_id = "step_2_search") with
  | none =>
      { base with status := .completed, result := some "Skipped (no search results)" }
  | some searchStep =>
      if searchStep.status ≠ WorkflowStatus.completed then
        { base with status := .completed, result := some "Skipped (no search results)" }
      else
        match classifyResults env (metaResults searchStep.metadata) with
        | .error e => { base with status := .error, error := some e }
        | .ok entries =>
            let sorted := List.insertionSort
              (fun a b => classLeB a b = true) entries
            { base with
              status := .completed
              result := some ("Classified " ++ toString entries.length ++ " emails")
              metadata := .classifyMeta sorted }

/-- `_step_rag_generation` (orchestrator.py:502). -/
def step_rag_generation (env : OrchestratorEnv) (query : String)
    (topK : Nat) : WorkflowStep :=
  let base : WorkflowStep :=
    { step_id := "step_4_rag"
      agent := "RAG Answer Generation Agent"
      description := "Generating grounded answer using retrieved context" }
  match env.rag_engine.answer_question query topK with
  | .error e => { base with status := .error, error := some e }
  | .ok response =>
      { base with
        status := .completed
        result := some "Answer generated successfully"
        metadata := .ragMeta response.answer response.citations }

/-- `_step_threat_detection` (orchestrator.py:541): analyze the top five
search results (snippet as body, no `from` key in the search dicts, so
the sender defaults to `""`), tally levels, and keep WARNING/CRITICAL
records. -/
def step_threat_detection (searchStep : WorkflowStep) : WorkflowStep :=
  let base : WorkflowStep :=
    { step_id := "step_5_threat"
      agent := "Threat Detection Agent"
      description := "Scanning emails for phishing, spoofing, and security threats" }
  let searchResults := metaResults searchStep.metadata
  let analyses := (searchResults.take 5).map fun r =>
    analyze { id := r.id, subject := r.subject, body := r.snippet, from_ := "" }
  let countLevel := fun lvl =>
    (analyses.filter (fun a => a.threat_level = lvl)).length
  let counts : ThreatCounts :=
    { safe := countLevel "SAFE", caution := countLevel "CAUTION"
      warning := countLevel "WARNING", critical := countLevel "CRITICAL" }
  let threatsFound :=
    (analyses.filter fun a =>
      a.threat_level = "WARNING" ∨ a.threat_level = "CRITICAL").map fun a =>
      ThreatRecord.mk a.email_id a.threat_level a.threat_score a.recommendation
  { base with
    status := .completed
    result := some ("Analyzed " ++ toString (searchResults.take 5).length ++
      " emails - " ++ toString counts.critical ++ " critical, " ++
      toString counts.warning ++ " warnings")
    metadata := .threatMeta threatsFound.length counts threatsFound }

/-- `_step_database_persistence` (orchestrator.py:600): write the
execution record and the kept threat records through the database
collaborator; its failure is confined to this step. -/
def step_database_persistence (env : OrchestratorEnv)
    (steps : List WorkflowStep) : WorkflowStep :=
  let base : WorkflowStep :=
    { step_id := "step_6_persist"
      agent := "Database Persistence Agent"
      description := "Storing workflow execution and threat analysis in database" }
  let threatStep := steps.find? (fun s => s.step_id = "step_5_threat")
  let threatsStored :=
    match threatStep with
    | some s => (metaCriticalThreats s.metadata).length
    | none => 0
  match env.persist with
  | .error e => { base with status := .error, error := some e }
  | .ok _ =>
      { base with
        status := .completed
        result := some "Workflow and threat analysis persisted to database"
        metadata := .persistMeta true threatsStored }

/-- `_execute_local_workflow` (orchestrator.py:202): intent detection,
query enhancement, semantic search with the fatal early return on
search ERROR, then classification and RAG (concurrent in the source,
read-only over the same inputs, hence order-equivalent), result
assembly, threat detection and persistence. -/
def execute_local_workflow (env : OrchestratorEnv) (counter : Nat)
    (query : String) (topK : Nat) (enableRag : Bool) : WorkflowExecution :=
  let executionId := "exec_" ++ toString counter
  let intentStep := step_intent_detection query
  let enhancedQuery := enhance_search_query query (detect_intent_type query)
  let searchStep := step_semantic_search env enhancedQuery topK
  if searchStep.status = WorkflowStatus.error then
    { execution_id := executionId, intent := query
      steps := [intentStep, searchStep], status := .error
      result := none, error := searchStep.error }
  else
    let steps2 := [intentStep, searchStep]
    let classifyStep := step_classification env steps2
    let ragStep := if enableRag then some (step_rag_generation env query topK) else none
    let steps3 := steps2 ++ [classifyStep] ++ ragStep.toList
    let result : WorkflowResult :=
      match ragStep with
      | some rs =>
          if rs.status = WorkflowStatus.completed then
            .withAnswer (metaAnswer rs.metadata) (metaCitations rs.metadata)
              (metaResults searchStep.metadata)
          else .searchOnly (metaResults searchStep.metadata)
      | none => .searchOnly (metaResults searchStep.metadata)
    let threatStep := step_threat_detection searchStep
    let steps4 := steps3 ++ [threatStep]
    let persistStep := step_database_persistence env steps4
    { execution_id := executionId, intent := query
      steps := steps4 ++ [persistStep], status := .completed
      result := some result, error := none }

/-! ## Concrete instances used by the verification -/

/-- The concrete scenario message of the spec (§8):
`{from: "fake@paypa1.com", subject: "URGENT: Verify your account immediately",
body: "Click https://bit.ly/verify-now"}`. -/
def c1Email : EmailDict :=
  { id := "c1"
    from_ := "fake@paypa1.com"
    subject := "URGENT: Verify your account immediately"
    body := "Click https://bit.ly/verify-now" }

/-- A benign message from an allow-listed domain. -/
def c2Email : EmailDict :=
  { id := "c2"
    from_ := "alice@gmail.com"
    subject := "Meeting at 3 PM"
    body := "See you tomorrow in the main room" }

/-- A message whose body contains the same suspicious URL twice. -/
def c4Email : EmailDict :=
  { id := "c4"
    from_ := ""
    subject := ""
    body := "https://bit.ly/a https://bit.ly/a" }

/-- The four non-URL contributions of `rawThreatScore`, named so the URL
contribution can be isolated. -/
def nonUrlThreatScore (email : EmailDict) : ℚ :=
  let sender := pyLower email.from_
  let subject := pyLower email.subject
  let body := pyLower email.body
  (if check_phishing_keywords (subject ++ " " ++ body) ≠ [] then 0.2 else 0) +
  (if (check_sender_domain sender).isSome then 0.3 else 0) +
  (if (check_typosquatting sender subject).isSome then 0.15 else 0) +
  (if (check_spoofing email).isSome then 0.25 else 0)

/-- A search engine over an empty collection. -/
def emptyIndexEngine : SemanticSearchEngine :=
  { embed := fun _ => .ok []
    collection := { entryCount := 0, query := fun _ _ => [] } }

/-- A one-entry collection whose backend reports cosine distance `3/2`
(legitimate for Chroma cosine space, whose distances range over `[0,2]`). -/
def farHitEngine : SemanticSearchEngine :=
  { embed := fun _ => .ok []
    collection :=
      { entryCount := 1
        query := fun _ _ => [{ email_id := "m1", subject := "s", date := "2026-01-01",
                               document := "doc", distance := 3/2 }] } }

/-- A two-entry collection whose backend reports distances in `[0,1]` in
non-decreasing order. -/
def sortedHitsEngine : SemanticSearchEngine :=
  { embed := fun _ => .ok []
    collection :=
      { entryCount := 2
        query := fun _ _ =>
          [{ email_id := "a", subject := "s1", date := "2026-01-01",
             document := "doc1", distance := 1/10 },
           { email_id := "b", subject := "s2", date := "2026-01-02",
             document := "doc2", distance := 1/2 }] } }

/-- A RAG engine over the empty index. -/
def emptyIndexRagEngine : RAGEngine :=
  { search_engine :=
      { embed := fun _ => .ok []
        collection := { entryCount := 0, query := fun _ _ => [] } }
    generate := fun p => p }

/-- A search engine whose (non-empty) collection forces an embedding
call that fails, making `search` raise. -/
def failingSearchEngine : SemanticSearchEngine :=
  { embed := fun _ => .error "embedding model unavailable"
    collection := { entryCount := 1, query := fun _ _ => [] } }

/-- An orchestrator environment whose semantic-search step fails. -/
def failingSearchEnv : OrchestratorEnv :=
  { search_engine := failingSearchEngine
    rag_engine := { search_engine := failingSearchEngine, generate := fun p => p }
    classify_email := fun _ => { categories := ["general"], priority := "medium" }
    persist := .ok () }

/-- No leading and no trailing Python whitespace (the `getLast?` side is
read through `reverse.head?`). -/
def isTrimmedB (s : String) : Bool :=
  (s.data.head?.all fun c => !(isPySpace c)) &&
  (s.data.reverse.head?.all fun c => !(isPySpace c))

/-! ## Theorems -/

/-- Projection of `analyze`: the reported score is the clamped raw score
rounded to two decimals. -/
theorem analyze_score_eq (e : EmailDict) :
    (analyze e).threat_score = pyRound2 (min (rawThreatScore e) 1) := rfl

/-- Projection of `analyze`: the level is computed from the clamped
(unrounded) score. -/
theorem analyze_level_eq (e : EmailDict) :
    (analyze e).threat_level = calculate_threat_level (min (rawThreatScore e) 1) := rfl

/-- Projection of `analyze`: the indicator list is the concatenation of
the five check results in source order. -/
theorem analyze_indicators_eq (e : EmailDict) :
    (analyze e).indicators =
      check_phishing_keywords (pyLower e.subject ++ " " ++ pyLower e.body) ++
      (check_sender_domain (pyLower e.from_)).toList ++
      check_urls (pyLower e.body) ++
      (check_typosquatting (pyLower e.from_) (pyLower e.subject)).toList ++
      (check_spoofing e).toList := rfl

/-- Rounding to two decimals is the identity on multiples of `1/20`. -/
theorem pyRound2_natDiv20 (m : ℕ) : pyRound2 ((m : ℚ) / 20) = (m : ℚ) / 20 := by
  unfold pyRound2
  rw [show ((m : ℚ) / 20 * 100) = ((5 * m : ℕ) : ℚ) by push_cast; ring, round_natCast]
  push_cast
  ring

/-- The URL contribution can be written unconditionally as
`0.25 * count` (the guard only skips an addition of zero). -/
theorem check_urls_ite_eq (b : String) :
    (if check_urls b ≠ [] then (0.25 : ℚ) * ((check_urls b).length : ℚ) else 0) =
      0.25 * ((check_urls b).length : ℚ) := by
  split_ifs with h
  · rfl
  · rw [not_ne_iff] at h
    rw [h]
    simp

/-- Every accumulated raw threat score is a natural multiple of `1/20`. -/
theorem rawThreatScore_div20 (e : EmailDict) :
    ∃ k : ℕ, rawThreatScore e = (k : ℚ) / 20 := by
  refine ⟨(if check_phishing_keywords (pyLower e.subject ++ " " ++ pyLower e.body) ≠ [] then 4 else 0) +
      (if (check_sender_domain (pyLower e.from_)).isSome then 6 else 0) +
      5 * (check_urls (pyLower e.body)).length +
      (if (check_typosquatting (pyLower e.from_) (pyLower e.subject)).isSome then 3 else 0) +
      (if (check_spoofing e).isSome then 5 else 0), ?_⟩
  simp only [rawThreatScore]
  rw [check_urls_ite_eq]
  split_ifs <;> push_cast <;> ring

/-- The raw score is non-negative. -/
theorem rawThreatScore_nonneg (e : EmailDict) : 0 ≤ rawThreatScore e := by
  obtain ⟨k, hk⟩ := rawThreatScore_div20 e
  rw [hk]
  positivity

/-- The reported threat score equals the clamped raw score (the rounding
is the identity there), and both are `m/20` for some `m ≤ 20`. -/
theorem analyze_score_min (e : EmailDict) :
    ∃ m : ℕ, m ≤ 20 ∧ min (rawThreatScore e) 1 = (m : ℚ) / 20 ∧
      (analyze e).threat_score = (m : ℚ) / 20 := by
  obtain ⟨k, hk⟩ := rawThreatScore_div20 e
  have hmin : min (rawThreatScore e) 1 = ((min k 20 : ℕ) : ℚ) / 20 := by
    rw [hk]
    rcases le_total k 20 with h | h
    · rw [Nat.min_eq_left h, min_eq_left]
      rw [div_le_one (by norm_num)]
      exact_mod_cast h
    · rw [Nat.min_eq_right h, min_eq_right]
      · norm_num
      · rw [le_div_iff₀ (by norm_num), one_mul]
        exact_mod_cast h
  exact ⟨min k 20, Nat.min_le_right _ _, hmin, by
    rw [analyze_score_eq, hmin, pyRound2_natDiv20]⟩

/-- `_calculate_threat_level` reports CRITICAL exactly on `[0.75, ∞)`. -/
theorem ctl_critical_iff (s : ℚ) :
    calculate_threat_level s = "CRITICAL" ↔ 0.75 ≤ s := by
  unfold calculate_threat_level
  split_ifs with h1 h2 h3
  · exact iff_of_true rfl h1
  · exact iff_of_false (by decide) h1
  · exact iff_of_false (by decide) h1
  · exact iff_of_false (by decide) h1

/-- `_calculate_threat_level` reports WARNING exactly on `[0.5, 0.75)`. -/
theorem ctl_warning_iff (s : ℚ) :
    calculate_threat_level s = "WARNING" ↔ 0.5 ≤ s ∧ s < 0.75 := by
  unfold calculate_threat_level
  split_ifs with h1 h2 h3
  · exact iff_of_false (by decide) (fun h => absurd h1 (not_le.mpr h.2))
  · exact iff_of_true rfl ⟨h2, not_le.mp h1⟩
  · exact iff_of_false (by decide) (fun h => h2 h.1)
  · exact iff_of_false (by decide) (fun h => h2 h.1)

/-- `_calculate_threat_level` reports CAUTION exactly on `[0.25, 0.5)`. -/
theorem ctl_caution_iff (s : ℚ) :
    calculate_threat_level s = "CAUTION" ↔ 0.25 ≤ s ∧ s < 0.5 := by
  unfold calculate_threat_level
  split_ifs with h1 h2 h3
  · exact iff_of_false (by decide)
      (fun h => absurd h1 (not_le.mpr (lt_of_lt_of_le h.2 (by norm_num))))
  · exact iff_of_false (by decide) (fun h => absurd h2 (not_le.mpr h.2))
  · exact iff_of_true rfl ⟨h3, not_le.mp h2⟩
  · exact iff_of_false (by decide) (fun h => h3 h.1)

/-- `_calculate_threat_level` reports SAFE exactly on `(-∞, 0.25)`. -/
theorem ctl_safe_iff (s : ℚ) :
    calculate_threat_level s = "SAFE" ↔ s < 0.25 := by
  unfold calculate_threat_level
  split_ifs with h1 h2 h3
  · exact iff_of_false (by decide) (not_lt.mpr (le_trans (by norm_num) h1))
  · exact iff_of_false (by decide) (not_lt.mpr (le_trans (by norm_num) h2))
  · exact iff_of_false (by decide) (not_lt.mpr (le_trans (by norm_num) h3))
  · exact iff_of_true rfl (not_le.mp h3)

/-- C3: for every message, the reported `threat_score` lies in `[0, 1]`,
it is the sum of the five weighted contributions clamped to `[0,1]` (and
rounded to two decimals, which there changes nothing), and
`threat_level` is the non-decreasing step function of that score with
boundaries 0.25 (CAUTION), 0.5 (WARNING) and 0.75 (CRITICAL), SAFE
below 0.25. -/
theorem threat_score_bounds_and_level (e : EmailDict) :
    0 ≤ (analyze e).threat_score ∧ (analyze e).threat_score ≤ 1 ∧
    (analyze e).threat_score = pyRound2 (min (rawThreatScore e) 1) ∧
    ((analyze e).threat_level = "CRITICAL" ↔ 0.75 ≤ (analyze e).threat_score) ∧
    ((analyze e).threat_level = "WARNING" ↔
      0.5 ≤ (analyze e).threat_score ∧ (analyze e).threat_score < 0.75) ∧
    ((analyze e).threat_level = "CAUTION" ↔
      0.25 ≤ (analyze e).threat_score ∧ (analyze e).threat_score < 0.5) ∧
    ((analyze e).threat_level = "SAFE" ↔ (analyze e).threat_score < 0.25) := by
  obtain ⟨m, hm, hmin, hts⟩ := analyze_score_min e
  have hlv : (analyze e).threat_level =
      calculate_threat_level ((analyze e).threat_score) := by
    rw [analyze_level_eq, hmin, hts]
  refine ⟨?_, ?_, analyze_score_eq e, ?_, ?_, ?_, ?_⟩
  · rw [hts]; positivity
  · rw [hts, div_le_one (by norm_num)]
    exact_mod_cast hm
  · rw [hlv]; exact ctl_critical_iff _
  · rw [hlv]; exact ctl_warning_iff _
  · rw [hlv]; exact ctl_caution_iff _
  · rw [hlv]; exact ctl_safe_iff _

/-- Helper: the raw score of the concrete spec scenario is 0.6 — the
keyword check (+0.2), one suspicious URL (+0.25) and typosquatting
(+0.15) fire; the domain check does not (the `paypa[li]\.` pattern does
not match `paypa1.com`) and the spoofing check does not (`paypal` spelled
correctly occurs nowhere). -/
theorem c1_raw_score : rawThreatScore c1Email = 0.6 := by
  have hk : check_phishing_keywords
      (pyLower c1Email.subject ++ " " ++ pyLower c1Email.body) ≠ [] := by decide
  have hd : check_sender_domain (pyLower c1Email.from_) = none := by decide
  have hu : check_urls (pyLower c1Email.body) =
      [mkUrlIndicator ("https://bit.ly/verify-now".data)] := by decide
  have ht : (check_typosquatting (pyLower c1Email.from_)
      (pyLower c1Email.subject)).isSome = true := by decide
  have hs : check_spoofing c1Email = none := by decide
  simp [rawThreatScore, hk, hd, hu, ht, hs]
  norm_num

/-- Helper: the reported score of the scenario message. -/
theorem c1_score : (analyze c1Email).threat_score = 0.6 := by
  rw [analyze_score_eq, c1_raw_score, min_eq_left (by norm_num)]
  unfold pyRound2
  rw [show ((0.6 : ℚ) * 100) = ((60 : ℤ) : ℚ) by norm_num, round_intCast]
  norm_num

/-- Helper: the reported level of the scenario message. -/
theorem c1_level : (analyze c1Email).threat_level = "WARNING" := by
  rw [analyze_level_eq, c1_raw_score, min_eq_left (by norm_num)]
  exact (ctl_warning_iff _).mpr (by norm_num)

/-- C1 counterexample: on the spec scenario message the detector reports
threat_level WARNING (not CRITICAL) and threat_score 0.6 (< 0.75),
refuting the clause `threat_score ≥ 0.75 ∧ threat_level = CRITICAL`. -/
theorem c1_scenario_counterexample :
    (analyze c1Email).threat_level ≠ "CRITICAL" ∧
    ¬ ((0.75 : ℚ) ≤ (analyze c1Email).threat_score) := by
  constructor
  · rw [c1_level]; decide
  · rw [c1_score]; norm_num

/-- C1 amended: on the scenario message the indicators do include
typosquatting, phishing (keyword) and suspicious_url, but the
threat_score is exactly 0.6 and the threat_level is WARNING. -/
theorem c1_scenario_amended :
    (∃ i ∈ (analyze c1Email).indicators, i.type = "typosquatting") ∧
    (∃ i ∈ (analyze c1Email).indicators, i.type = "phishing") ∧
    (∃ i ∈ (analyze c1Email).indicators, i.type = "suspicious_url") ∧
    (analyze c1Email).threat_score = 0.6 ∧
    (analyze c1Email).threat_level = "WARNING" :=
  ⟨by decide, by decide, by decide, c1_score, c1_level⟩

/-- C2: a message whose (lower-cased) sender contains `@` and whose
domain — the part after the last `@` — is on the trusted allow-list, and
on which no other check fires, is reported SAFE with zero indicators:
the domain check contributes neither an indicator nor any score. -/
theorem trusted_domain_suppression (e : EmailDict)
    (hat : strContains (pyLower e.from_) "@" = true)
    (hdom : TRUSTED_DOMAINS.contains
      (String.mk (lastSplitSeg '@' (pyLower e.from_).data)) = true)
    (hk : check_phishing_keywords (pyLower e.subject ++ " " ++ pyLower e.body) = [])
    (hu : check_urls (pyLower e.body) = [])
    (ht : check_typosquatting (pyLower e.from_) (pyLower e.subject) = none)
    (hs : check_spoofing e = none) :
    (analyze e).threat_level = "SAFE" ∧ (analyze e).indicators = [] := by
  have hdomain : String.mk (lastSplitSeg '@' (pyLower e.from_).data) ∈ TRUSTED_DOMAINS := by
    simpa using hdom
  have hd : check_sender_domain (pyLower e.from_) = none := by
    simp [check_sender_domain, hat]
    intro _ h2
    exact absurd hdomain h2
  constructor
  · rw [analyze_level_eq]
    have hraw : rawThreatScore e = 0 := by
      simp [rawThreatScore, hk, hd, hu, ht, hs]
    rw [hraw, min_eq_left (by norm_num)]
    exact (ctl_safe_iff _).mpr (by norm_num)
  · rw [analyze_indicators_eq, hk, hd, hu, ht, hs]
    rfl

/-- Witness for C2 at a concrete benign message from `gmail.com`. -/
theorem trusted_domain_suppression_witness :
    (analyze c2Email).threat_level = "SAFE" ∧ (analyze c2Email).indicators = [] :=
  trusted_domain_suppression c2Email (by decide) (by decide) (by decide)
    (by decide) (by decide) (by decide)

/-- A guarded `filterMap` is a `map` over a `filter`. -/
theorem filterMap_ite_eq {α β : Type} (p : α → Bool) (f : α → β) (l : List α) :
    (l.filterMap (fun u => if p u then some (f u) else none)) = (l.filter p).map f := by
  induction l with
  | nil => rfl
  | cons h t ih => cases hp : p h <;> simp [List.filterMap_cons, List.filter_cons, hp, ih]

/-- `_check_urls` produces exactly one indicator per matching URL
occurrence, in order. -/
theorem check_urls_eq_map_filter (t : String) :
    check_urls t =
      ((findUrls t.data).filter (fun u => url_is_malicious u)).map mkUrlIndicator := by
  unfold check_urls
  exact filterMap_ite_eq _ _ _

/-- Keyword indicators carry type `phishing`. -/
theorem check_phishing_keywords_type (t : String) :
    ∀ i ∈ check_phishing_keywords t, i.type = "phishing" := by
  intro i hi
  simp only [check_phishing_keywords] at hi
  split_ifs at hi
  · exact absurd hi (List.not_mem_nil i)
  · rw [List.mem_singleton] at hi
    subst hi
    rfl

/-- Domain indicators carry type `suspicious_domain` or `phishing`,
never `suspicious_url`. -/
theorem check_sender_domain_type (s : String) (i : ThreatIndicator)
    (h : check_sender_domain s = some i) : i.type ≠ "suspicious_url" := by
  simp only [check_sender_domain] at h
  split at h
  · exact absurd h (by simp)
  · split at h
    · exact absurd h (by simp)
    · split at h
      · obtain rfl := Option.some.inj h
        show ("suspicious_domain" : String) ≠ "suspicious_url"
        decide
      · split at h
        · obtain rfl := Option.some.inj h
          show ("phishing" : String) ≠ "suspicious_url"
          decide
        · exact absurd h (by simp)

/-- Typosquatting indicators carry type `typosquatting`. -/
theorem check_typosquatting_type (s su : String) (i : ThreatIndicator)
    (h : check_typosquatting s su = some i) : i.type = "typosquatting" := by
  simp only [check_typosquatting] at h
  rcases hf : (typo_indicators.find?
      (fun p => strContains (pyLower (s ++ " " ++ su)) p.1)) with _ | pr
  · rw [hf] at h
    simp at h
  · rw [hf] at h
    rw [Option.map_some'] at h
    obtain rfl := Option.some.inj h
    rfl

/-- Spoofing indicators carry type `spoofing`. -/
theorem spoofLoop_type (s su : String) (l : List String) (i : ThreatIndicator)
    (h : spoofLoop s su l = some i) : i.type = "spoofing" := by
  induction l with
  | nil => simp [spoofLoop] at h
  | cons c rest ih =>
      simp only [spoofLoop] at h
      split at h
      · split at h
        · split at h
          · obtain rfl := Option.some.inj h
            rfl
          · exact ih h
        · split at h
          · obtain rfl := Option.some.inj h
            rfl
          · exact ih h
      · exact ih h

/-- Keyword indicators never count as `suspicious_url`. -/
theorem countP_check_phishing (t : String) :
    (check_phishing_keywords t).countP (fun i => i.type == "suspicious_url") = 0 := by
  rw [List.countP_eq_zero]
  intro i hi
  rw [check_phishing_keywords_type t i hi]
  decide

/-- An optional indicator known not to match contributes no count. -/
theorem countP_toList_zero {p : ThreatIndicator → Bool} (o : Option ThreatIndicator)
    (h : ∀ i, o = some i → p i = false) : o.toList.countP p = 0 := by
  cases o with
  | none => rfl
  | some i => simp [List.countP_cons, h i rfl]

/-- Every `_check_urls` indicator counts as `suspicious_url`. -/
theorem countP_check_urls (b : String) :
    (check_urls b).countP (fun i => i.type == "suspicious_url") =
      (check_urls b).length := by
  rw [List.countP_eq_length]
  intro i hi
  rw [check_urls_eq_map_filter] at hi
  obtain ⟨u, hu, rfl⟩ := List.mem_map.mp hi
  rfl

/-- The `suspicious_url` indicators of an analysis are exactly one per
matching URL occurrence (with multiplicity). -/
theorem url_indicator_count (e : EmailDict) :
    ((analyze e).indicators.countP (fun i => i.type == "suspicious_url")) =
      ((findUrls (pyLower e.body).data).filter (fun u => url_is_malicious u)).length := by
  rw [analyze_indicators_eq, List.countP_append, List.countP_append,
    List.countP_append, List.countP_append]
  rw [countP_check_phishing]
  rw [countP_toList_zero _ (fun i hi => beq_eq_false_iff_ne.mpr
    (check_sender_domain_type (pyLower e.from_) i hi))]
  rw [countP_toList_zero _ (fun i hi => by
    rw [check_typosquatting_type (pyLower e.from_) (pyLower e.subject) i hi]
    decide)]
  rw [countP_toList_zero _ (fun i hi => by
    rw [spoofLoop_type (pyLower e.from_) (pyLower e.subject) trusted_names i hi]
    decide)]
  rw [countP_check_urls, check_urls_eq_map_filter, List.length_map]
  ring

/-- Helper: the body of `c4Email` contains two occurrences of the same
matching URL, and each occurrence yields its own indicator. -/
theorem c4_urls : check_urls (pyLower c4Email.body) =
    [mkUrlIndicator ("https://bit.ly/a".data), mkUrlIndicator ("https://bit.ly/a".data)] := by
  decide

/-- Helper: the raw score of `c4Email` counts the duplicated URL twice. -/
theorem c4_raw_score : rawThreatScore c4Email = 0.5 := by
  have hk : check_phishing_keywords
      (pyLower c4Email.subject ++ " " ++ pyLower c4Email.body) = [] := by decide
  have hd : check_sender_domain (pyLower c4Email.from_) = none := by decide
  have ht : check_typosquatting (pyLower c4Email.from_) (pyLower c4Email.subject) = none := by
    decide
  have hs : check_spoofing c4Email = none := by decide
  simp [rawThreatScore, hk, hd, c4_urls, ht, hs]
  norm_num

/-- Helper: the reported score of `c4Email`. -/
theorem c4_score : (analyze c4Email).threat_score = 0.5 := by
  rw [analyze_score_eq, c4_raw_score, min_eq_left (by norm_num)]
  unfold pyRound2
  rw [show ((0.5 : ℚ) * 100) = ((50 : ℤ) : ℚ) by norm_num, round_intCast]
  norm_num

/-- C4 counterexample: a body containing the same matching URL twice
yields two `suspicious_url` indicators (same evidence twice) and a score
contribution of 0.5, not the single indicator and single +0.25 the claim
asserts for a distinct URL. -/
theorem url_dedup_counterexample :
    ((analyze c4Email).indicators.map (fun i => i.evidence)) =
      ["https://bit.ly/a", "https://bit.ly/a"] ∧
    (analyze c4Email).indicators.countP (fun i => i.type == "suspicious_url") = 2 ∧
    (analyze c4Email).threat_score = 0.5 :=
  ⟨by decide, by decide, c4_score⟩

/-- C4 amended: each OCCURRENCE of a matching URL in the body adds
exactly one `suspicious_url` indicator and one +0.25 score increment;
occurrences are not deduplicated, so a URL appearing twice contributes
twice. -/
theorem url_per_occurrence_amended (e : EmailDict) :
    ((analyze e).indicators.countP (fun i => i.type == "suspicious_url")) =
      ((findUrls (pyLower e.body).data).filter (fun u => url_is_malicious u)).length ∧
    rawThreatScore e = nonUrlThreatScore e +
      0.25 * (((findUrls (pyLower e.body).data).filter
        (fun u => url_is_malicious u)).length : ℚ) := by
  constructor
  · exact url_indicator_count e
  · have hlen : (check_urls (pyLower e.body)).length =
        ((findUrls (pyLower e.body).data).filter (fun u => url_is_malicious u)).length := by
      rw [check_urls_eq_map_filter, List.length_map]
    simp only [rawThreatScore, nonUrlThreatScore]
    rw [check_urls_ite_eq, hlen]
    ring

/-- C5: `search` against a collection with zero entries returns the
empty list through the early-return branch, before the (possibly
failing) embedding call — it never raises. -/
theorem search_empty_index (eng : SemanticSearchEngine) (query : String)
    (topK : Nat) (h : eng.collection.entryCount = 0) :
    eng.search query topK = .ok [] := by
  simp [SemanticSearchEngine.search, h]

/-- Witness for C5 at a concrete empty index: the spec scenario query. -/
theorem search_empty_index_witness :
    emptyIndexEngine.search "completely unrelated nonsense query" 5 = .ok [] :=
  search_empty_index emptyIndexEngine "completely unrelated nonsense query" 5 rfl

/-- Mathlib `round` is monotone on ℚ. -/
theorem round_mono_q {a b : ℚ} (h : a ≤ b) : round a ≤ round b := by
  rw [round_eq, round_eq]
  exact Int.floor_le_floor (by linarith)

/-- `pyRound4` is monotone. -/
theorem pyRound4_mono {a b : ℚ} (h : a ≤ b) : pyRound4 a ≤ pyRound4 b := by
  unfold pyRound4
  have hr := round_mono_q (mul_le_mul_of_nonneg_right h (by norm_num : (0:ℚ) ≤ 10000))
  have hc : ((round (a * 10000) : ℤ) : ℚ) ≤ ((round (b * 10000) : ℤ) : ℚ) := by
    exact_mod_cast hr
  exact (div_le_div_iff_of_pos_right (by norm_num)).mpr hc

/-- `pyRound4` maps `[0, 1]` into `[0, 1]`. -/
theorem pyRound4_bounds {q : ℚ} (h0 : 0 ≤ q) (h1 : q ≤ 1) :
    0 ≤ pyRound4 q ∧ pyRound4 q ≤ 1 := by
  have hz : pyRound4 0 = 0 := by
    unfold pyRound4
    rw [show ((0 : ℚ) * 10000) = ((0 : ℤ) : ℚ) by norm_num, round_intCast]
    norm_num
  have ho : pyRound4 1 = 1 := by
    unfold pyRound4
    rw [show ((1 : ℚ) * 10000) = ((10000 : ℤ) : ℚ) by norm_num, round_intCast]
    norm_num
  constructor
  · have := pyRound4_mono h0
    rwa [hz] at this
  · have := pyRound4_mono h1
    rwa [ho] at this

/-- C6 counterexample: with a backend that reports cosine distance `3/2`
(possible, since Chroma cosine distances range over `[0, 2]`), `search`
returns a result whose score `1 - distance = -1/2` lies outside `[0, 1]`. -/
theorem search_score_counterexample :
    ∃ rs, farHitEngine.search "query" 5 = .ok rs ∧ ∃ r ∈ rs, r.score < 0 := by
  refine ⟨[formatHit (QueryHit.mk "m1" "s" "2026-01-01" "doc" (3/2))], rfl, ?_⟩
  refine ⟨_, List.mem_singleton.mpr rfl, ?_⟩
  show pyRound4 (1 - 3/2) < 0
  unfold pyRound4
  rw [show ((1 - 3/2 : ℚ) * 10000) = ((-5000 : ℤ) : ℚ) by norm_num, round_intCast]
  norm_num

/-- C6 amended: every returned score is `round4(1 - distance)` for the
backend-reported distance of its hit — a monotonically decreasing
function of distance — and PROVIDED the backend reports distances inside
`[0, 1]` and in non-decreasing order, all scores lie in `[0, 1]` and
results come back in non-increasing score order. -/
theorem search_scores_amended (eng : SemanticSearchEngine) (query : String)
    (topK : Nat) (rs : List SearchResult)
    (h : eng.search query topK = .ok rs)
    (hd : ∀ emb n, ∀ q ∈ eng.collection.query emb n, 0 ≤ q.distance ∧ q.distance ≤ 1)
    (hsorted : ∀ emb n, (eng.collection.query emb n).Pairwise
      (fun a b => a.distance ≤ b.distance)) :
    (∃ hits : List QueryHit, rs = hits.map formatHit) ∧
    (∀ r ∈ rs, 0 ≤ r.score ∧ r.score ≤ 1) ∧
    rs.Pairwise (fun a b => b.score ≤ a.score) := by
  simp only [SemanticSearchEngine.search] at h
  by_cases hc : eng.collection.entryCount = 0
  · rw [if_pos hc] at h
    obtain rfl := (Except.ok.inj h).symm
    exact ⟨⟨[], rfl⟩, by simp, List.Pairwise.nil⟩
  · rw [if_neg hc] at h
    rcases hemb : eng.embed query with e | emb
    · rw [hemb] at h
      simp at h
    · rw [hemb] at h
      simp only [Except.ok.injEq] at h
      subst h
      refine ⟨⟨_, rfl⟩, ?_, ?_⟩
      · intro r hr
        obtain ⟨q, hq, rfl⟩ := List.mem_map.mp hr
        have hb := hd emb _ q hq
        show 0 ≤ pyRound4 (1 - q.distance) ∧ pyRound4 (1 - q.distance) ≤ 1
        exact pyRound4_bounds (by linarith [hb.2]) (by linarith [hb.1])
      · rw [List.pairwise_map]
        refine (hsorted emb _).imp ?_
        intro a b hab
        show pyRound4 (1 - b.distance) ≤ pyRound4 (1 - a.distance)
        exact pyRound4_mono (by linarith)

/-- Witness for the amended C6 at a backend returning distances `1/10`
then `1/2`. -/
theorem search_scores_amended_witness :
    ∃ rs, sortedHitsEngine.search "q" 5 = .ok rs ∧
      ((∃ hits : List QueryHit, rs = hits.map formatHit) ∧
       (∀ r ∈ rs, 0 ≤ r.score ∧ r.score ≤ 1) ∧
       rs.Pairwise (fun a b => b.score ≤ a.score)) := by
  refine ⟨_, rfl, search_scores_amended sortedHitsEngine "q" 5 _ rfl ?_ ?_⟩
  · intro emb n q hq
    cases hq with
    | head => constructor <;> norm_num
    | tail _ hq2 =>
        cases hq2 with
        | head => constructor <;> norm_num
        | tail _ hq3 => cases hq3
  · intro emb n
    refine List.Pairwise.cons (fun b hb => ?_) (List.Pairwise.cons (fun b hb => ?_) List.Pairwise.nil)
    · cases hb with
      | head => norm_num
      | tail _ hb2 => cases hb2
    · cases hb

/-- The head of a `dropWhile` result never satisfies the predicate. -/
theorem dropWhile_head_not {p : Char → Bool} :
    ∀ (l : List Char) (c : Char), (l.dropWhile p).head? = some c → p c = false := by
  intro l
  induction l with
  | nil =>
      intro c hc
      simp at hc
  | cons x t ih =>
      intro c hc
      rw [List.dropWhile_cons] at hc
      by_cases hp : p x
      · rw [if_pos hp] at hc
        exact ih c hc
      · rw [if_neg hp] at hc
        rw [List.head?_cons] at hc
        obtain rfl := Option.some.inj hc
        exact Bool.eq_false_iff.mpr hp

/-- `getLast?` looks only at a non-empty right factor. -/
theorem getLast?_append_right {α : Type} (l1 l2 : List α) (h : l2 ≠ []) :
    (l1 ++ l2).getLast? = l2.getLast? := by
  induction l1 with
  | nil => rfl
  | cons x t ih =>
      rw [List.cons_append]
      rcases hx : t ++ l2 with _ | ⟨y, r⟩
      · exact absurd (List.append_eq_nil.mp hx).2 h
      · rw [List.getLast?_cons_cons, ← hx]
        exact ih

/-- A non-empty `dropWhile` keeps the original last element. -/
theorem getLast?_dropWhile {p : Char → Bool} (l : List Char)
    (h : l.dropWhile p ≠ []) : (l.dropWhile p).getLast? = l.getLast? := by
  obtain ⟨pre, hpre⟩ := List.dropWhile_suffix (l := l) p
  have hres := getLast?_append_right pre (l.dropWhile p) h
  rw [hpre] at hres
  exact hres.symm

/-- A stripped string has no leading and no trailing whitespace. -/
theorem isTrimmedB_pyStrip (s : String) : isTrimmedB (pyStrip s) = true := by
  rcases hB : (s.data.dropWhile isPySpace).reverse.dropWhile isPySpace with _ | ⟨b, tb⟩
  · simp only [isTrimmedB, pyStrip]
    rw [List.reverse_reverse, hB]
    rfl
  · have hfirst : ((((s.data.dropWhile isPySpace).reverse.dropWhile
        isPySpace).reverse).head?.all fun c => !(isPySpace c)) = true := by
      rw [List.head?_reverse]
      rw [getLast?_dropWhile _ (by rw [hB]; simp)]
      rw [List.getLast?_reverse]
      rcases hA : s.data.dropWhile isPySpace with _ | ⟨a, ta⟩
      · rfl
      · rw [List.head?_cons, Option.all_some]
        have ha := dropWhile_head_not s.data a (by rw [hA]; rfl)
        rw [ha]
        rfl
    have hsecond : (((s.data.dropWhile isPySpace).reverse.dropWhile
        isPySpace).head?.all fun c => !(isPySpace c)) = true := by
      have hb := dropWhile_head_not (s.data.dropWhile isPySpace).reverse b
        (by rw [hB]; rfl)
      rw [hB, List.head?_cons, Option.all_some, hb]
      rfl
    simp only [isTrimmedB, pyStrip]
    rw [List.reverse_reverse, hfirst, hsecond]
    rfl

/-- Every chunk the sliding-window loop emits is a stripped string,
whatever the fuel, start offset and parameters. -/
theorem chunkLoop_stripped (text : List Char) (cs ov : Nat) :
    ∀ (fuel : Nat) (start : Int), ∀ c ∈ chunkLoop text cs ov fuel start,
      isTrimmedB c = true := by
  intro fuel
  induction fuel with
  | zero =>
      intro start c hc
      simp [chunkLoop] at hc
  | succ n ih =>
      intro start c hc
      simp only [chunkLoop] at hc
      split at hc
      · rcases List.mem_cons.mp hc with rfl | hc2
        · exact isTrimmedB_pyStrip _
        · exact ih _ c hc2
      · simp at hc

/-- C7 counterexample: for the one-space text on the short path the
chunker returns the text verbatim, a chunk that still carries leading
whitespace (and `chunk_text "" ...` likewise returns the empty chunk),
refuting "every chunk is non-empty and trimmed". -/
theorem chunk_trimmed_counterexample :
    chunk_text " " (some 5) (some 1) = [" "] ∧ isTrimmedB " " = false ∧
    chunk_text "" (some 5) (some 1) = [""] ∧ ("" : String).length = 0 :=
  ⟨by decide, by decide, by decide, by decide⟩

/-- C7 amended: on the long path (text strictly longer than the
effective chunk size) every produced chunk is `.strip()`-ed — no leading
or trailing whitespace, though it may be empty; on the short path the
chunker returns `[text]` verbatim, which may be empty or untrimmed. -/
theorem chunk_text_amended (text : String) (cs ov : Option Nat) :
    (pyOrNat cs settings_chunk_size < text.length →
      ∀ c ∈ chunk_text text cs ov, isTrimmedB c = true) ∧
    (text.length ≤ pyOrNat cs settings_chunk_size →
      chunk_text text cs ov = [text]) := by
  constructor
  · intro hlen c hc
    simp only [chunk_text] at hc
    rw [if_neg (not_le.mpr hlen)] at hc
    exact chunkLoop_stripped text.data _ _ _ _ c hc
  · intro hlen
    simp only [chunk_text]
    rw [if_pos hlen]

/-- Witness for the amended C7: a 14-character text chunked with size 6,
and a short text returned verbatim. -/
theorem chunk_text_amended_witness :
    (∀ c ∈ chunk_text "aaaa bbbb cccc" (some 6) (some 2), isTrimmedB c = true) ∧
    chunk_text "hi" none none = ["hi"] :=
  ⟨(chunk_text_amended "aaaa bbbb cccc" (some 6) (some 2)).1 (by decide),
   (chunk_text_amended "hi" none none).2 (by decide)⟩

/-- C10: `index_messages` on the empty batch raises `ZeroDivisionError`
while computing `avg_chunks_per_message` instead of returning `(0,
stats)`; on every non-empty batch it returns `chunks_indexed` equal to
the total number of chunks produced over all messages. -/
theorem index_messages_spec (messages : List NormalizedMessage) :
    (messages = [] →
      index_messages messages = .error "ZeroDivisionError: division by zero") ∧
    (messages ≠ [] → ∃ stats, index_messages messages =
      .ok ((messages.map (fun m => (chunk_text m.text none none).length)).sum,
           stats)) := by
  constructor
  · rintro rfl
    rfl
  · intro hne
    have hlen : messages.length ≠ 0 := fun hz => hne (List.length_eq_zero.mp hz)
    have hflat : ((messages.map (fun m => chunk_text m.text none none)).flatten).length
        = (messages.map (fun m => (chunk_text m.text none none).length)).sum := by
      rw [List.length_flatten, List.map_map]
      rfl
    refine ⟨{ messages_indexed := messages.length
              chunks_created :=
                (messages.map (fun m => chunk_text m.text none none)).flatten.length
              avg_chunks_per_message := pyRound2
                ((((messages.map (fun m => chunk_text m.text none none)).flatten.length : ℚ)) /
                  ((messages.length : ℚ))) }, ?_⟩
    simp only [index_messages, pyDivNat]
    rw [if_neg hlen, hflat]

/-- Witness for C10: the empty batch raises, a one-message batch counts
its single chunk. -/
theorem index_messages_spec_witness :
    index_messages [] = .error "ZeroDivisionError: division by zero" ∧
    (∃ stats, index_messages
      [NormalizedMessage.mk "m1" "hello" "a@b" "c@d" "s" "2026-01-01"] =
        .ok (1, stats)) := by
  constructor
  · exact (index_messages_spec []).1 rfl
  · have h := (index_messages_spec
      [NormalizedMessage.mk "m1" "hello" "a@b" "c@d" "s" "2026-01-01"]).2 (by simp)
    have hsum : ([NormalizedMessage.mk "m1" "hello" "a@b" "c@d" "s" "2026-01-01"].map
        (fun m => (chunk_text m.text none none).length)).sum = 1 := by decide
    rw [hsum] at h
    exact h

/-- Every list an ok `search` returns has at most `top_k` elements,
provided the backend honours `n_results`. -/
theorem search_length_le (eng : SemanticSearchEngine) (query : String)
    (topK : Nat) (rs : List SearchResult)
    (hq : ∀ emb n, (eng.collection.query emb n).length ≤ n)
    (h : eng.search query topK = .ok rs) : rs.length ≤ topK := by
  simp only [SemanticSearchEngine.search] at h
  by_cases hc : eng.collection.entryCount = 0
  · rw [if_pos hc] at h
    obtain rfl := (Except.ok.inj h).symm
    exact Nat.zero_le _
  · rw [if_neg hc] at h
    rcases hemb : eng.embed query with e | emb
    · rw [hemb] at h
      simp at h
    · rw [hemb] at h
      simp only [Except.ok.injEq] at h
      subst h
      rw [List.length_map]
      rw [if_pos (Nat.pos_of_ne_zero hc)]
      exact le_trans (hq emb _) (Nat.min_le_left _ _)

/-- C8: whenever `answer_question` returns a response, its citations are
derived 1:1, in order, from exactly the search results used to build the
generator context (same id, subject, date, snippet); their number never
exceeds `top_k` (given a backend honouring `n_results`); and on empty
retrieval the answer is the fixed no-relevant-information text with an
empty citation list. -/
theorem rag_citations_grounded (eng : RAGEngine) (question : String) (topK : Nat)
    (resp : RAGResponse)
    (hq : ∀ emb n, (eng.search_engine.collection.query emb n).length ≤ n)
    (h : eng.answer_question question topK = .ok resp) :
    ∃ rs, eng.search_engine.search question topK = .ok rs ∧
      resp.citations = rs.map (fun r => Citation.mk r.id r.subject r.date r.snippet) ∧
      resp.citations.length ≤ topK ∧
      (rs = [] → resp = { answer := noResultsAnswer, citations := [] }) ∧
      (rs ≠ [] → resp.answer =
        eng.generate (buildPrompt question (build_context rs))) := by
  rcases hs : eng.search_engine.search question topK with e | rs2
  · have hred : eng.answer_question question topK = .error e := by
      simp only [RAGEngine.answer_question]
      rw [hs]
    rw [hred] at h
    exact absurd h (by simp)
  · have hred : eng.answer_question question topK =
        if rs2.isEmpty then .ok { answer := noResultsAnswer, citations := [] }
        else .ok { answer := eng.generate (buildPrompt question (build_context rs2))
                   citations := rs2.map fun r =>
                     Citation.mk r.id r.subject r.date r.snippet } := by
      simp only [RAGEngine.answer_question]
      rw [hs]
    rw [hred] at h
    by_cases he : rs2.isEmpty
    · rw [if_pos he] at h
      obtain rfl := (Except.ok.inj h).symm
      obtain rfl : rs2 = [] := List.isEmpty_iff.mp he
      exact ⟨[], rfl, rfl, Nat.zero_le _, fun _ => rfl, fun hne => absurd rfl hne⟩
    · rw [if_neg he] at h
      obtain rfl := (Except.ok.inj h).symm
      have hne : rs2 ≠ [] := fun hh => he (by rw [hh]; rfl)
      refine ⟨rs2, rfl, rfl, ?_, fun hh => absurd hh hne, fun _ => rfl⟩
      show (rs2.map _).length ≤ topK
      rw [List.length_map]
      exact search_length_le eng.search_engine question topK rs2 hq hs

/-- Witness for C8 over the empty index: the fixed no-results answer
with an empty citation list. -/
theorem rag_citations_grounded_witness :
    ∃ rs, emptyIndexRagEngine.search_engine.search "question" 3 = .ok rs ∧
      (RAGResponse.mk noResultsAnswer []).citations =
        rs.map (fun r => Citation.mk r.id r.subject r.date r.snippet) ∧
      (RAGResponse.mk noResultsAnswer []).citations.length ≤ 3 ∧
      (rs = [] → RAGResponse.mk noResultsAnswer [] =
        { answer := noResultsAnswer, citations := [] }) ∧
      (rs ≠ [] → (RAGResponse.mk noResultsAnswer []).answer =
        emptyIndexRagEngine.generate (buildPrompt "question" (build_context rs))) :=
  rag_citations_grounded emptyIndexRagEngine "question" 3
    (RAGResponse.mk noResultsAnswer []) (fun _ _ => Nat.zero_le _) rfl

/-- C9: in every local workflow execution whose semantic-search call
fails, the execution ends in status ERROR carrying the search step
error, the step list holds the failed search step, and no
classification, RAG or threat-detection step exists in the list at all
(they are never run), hence none has status COMPLETED. -/
theorem workflow_search_error_fatal (env : OrchestratorEnv) (counter : Nat)
    (query : String) (topK : Nat) (enableRag : Bool) (e : String)
    (h : env.search_engine.search
      (enhance_search_query query (detect_intent_type query)) topK = .error e) :
    (execute_local_workflow env counter query topK enableRag).status =
      WorkflowStatus.error ∧
    (execute_local_workflow env counter query topK enableRag).error = some e ∧
    (∃ s ∈ (execute_local_workflow env counter query topK enableRag).steps,
      s.step_id = "step_2_search" ∧ s.status = WorkflowStatus.error ∧
      s.error = some e) ∧
    (∀ s ∈ (execute_local_workflow env counter query topK enableRag).steps,
      s.step_id ≠ "step_3_classify" ∧ s.step_id ≠ "step_4_rag" ∧
      s.step_id ≠ "step_5_threat") := by
  have hstep : step_semantic_search env
      (enhance_search_query query (detect_intent_type query)) topK =
      { step_id := "step_2_search", agent := "Semantic Search Agent"
        description := "Searching for emails matching: \x27" ++
          enhance_search_query query (detect_intent_type query) ++ "\x27"
        status := .error, result := none, error := some e
        metadata := .empty } := by
    simp only [step_semantic_search]
    rw [h]
  have hexec : execute_local_workflow env counter query topK enableRag =
      { execution_id := "exec_" ++ toString counter, intent := query
        steps := [step_intent_detection query,
          step_semantic_search env
            (enhance_search_query query (detect_intent_type query)) topK]
        status := .error, result := none, error := some e } := by
    simp only [execute_local_workflow]
    rw [hstep, if_pos rfl]
  refine ⟨by rw [hexec], by rw [hexec], ?_, ?_⟩
  · refine ⟨step_semantic_search env
      (enhance_search_query query (detect_intent_type query)) topK, ?_, ?_, ?_, ?_⟩
    · rw [hexec]
      exact List.mem_cons_of_mem _ (List.mem_singleton.mpr rfl)
    · rw [hstep]
    · rw [hstep]
    · rw [hstep]
  · intro s hs
    rw [hexec] at hs
    rcases List.mem_cons.mp hs with rfl | hs2
    · refine ⟨?_, ?_, ?_⟩ <;>
        (show ("step_1_intent" : String) ≠ _; decide)
    · rcases List.mem_cons.mp hs2 with rfl | hs3
      · rw [hstep]
        refine ⟨?_, ?_, ?_⟩ <;>
          (show ("step_2_search" : String) ≠ _; decide)
      · exact absurd hs3 (List.not_mem_nil s)

/-- Witness for C9: a concrete environment whose embedding model call
fails, so the search step errors. -/
theorem workflow_search_error_fatal_witness :
    (execute_local_workflow failingSearchEnv 1 "q" 5 true).status =
      WorkflowStatus.error ∧
    (execute_local_workflow failingSearchEnv 1 "q" 5 true).error =
      some "embedding model unavailable" ∧
    (∃ s ∈ (execute_local_workflow failingSearchEnv 1 "q" 5 true).steps,
      s.step_id = "step_2_search" ∧ s.status = WorkflowStatus.error ∧
      s.error = some "embedding model unavailable") ∧
    (∀ s ∈ (execute_local_workflow failingSearchEnv 1 "q" 5 true).steps,
      s.step_id ≠ "step_3_classify" ∧ s.step_id ≠ "step_4_rag" ∧
      s.step_id ≠ "step_5_threat") :=
  workflow_search_error_fatal failingSearchEnv 1 "q" 5 true
    "embedding model unavailable" rfl
